import Mathlib

/-!
# Verification of the rhizobium QA analysis pipeline

Shallow embedding of `src/agent/qa_analyzer.py` and
`src/agent/progress_tracker.py`.

Strings are modelled as Lean `String`s (lists of characters); the Python
`re` patterns actually used by the code are embedded as a small regex AST
(`Rx`) with a faithful backtracking matcher, including Python's `\b`
word-boundary semantics (a boundary is a position where exactly one of the
neighbouring characters is a word character; word characters are
alphanumerics and underscore — the check-mark glyphs are *not* word
characters, in Python's `re` just as here).
-/

namespace QA

/-- Python `\w` restricted to the character repertoire the repository uses
(ASCII letters, digits, underscore; symbols such as the check marks are not
word characters). -/
def isWordChar (c : Char) : Bool := c.isAlphanum || c = '_'

/-- Regex abstract syntax covering exactly the constructs appearing in
`QAAnalyzer.PASS_PATTERNS`, `FAIL_PATTERNS` and the inline n/a regex:
literals, character classes, concatenation, alternation, `?`, and `\b`. -/
inductive Rx : Type
  | eps : Rx
  | chr : Char → Rx
  | cls : List Char → Rx
  | cat : Rx → Rx → Rx
  | alt : Rx → Rx → Rx
  | opt : Rx → Rx
  | wb : Rx
deriving Repr, DecidableEq

/-- Is `some c` a word character (with `none` = string edge, not a word
character)? -/
def optIsWord : Option Char → Bool
  | none => false
  | some c => isWordChar c

/-- Is the first character of the remaining input a word character? -/
def headIsWord : List Char → Bool
  | [] => false
  | c :: _ => isWordChar c

/-- Python `\b`: the previous character and the next character disagree on
word-character-ness. -/
def isBoundary (p : Option Char) (s : List Char) : Bool :=
  optIsWord p != headIsWord s

/-- Backtracking matcher: all ways `r` can match a prefix of `s`, each
result giving the last character consumed so far and the rest of the
input. `p` is the character immediately before the current position
(`none` at the start of the string), needed for `\b`. -/
def mtch : Rx → Option Char → List Char → List (Option Char × List Char)
  | Rx.eps, p, s => [(p, s)]
  | Rx.chr _, _, [] => []
  | Rx.chr c, _, x :: xs => if x = c then [(some x, xs)] else []
  | Rx.cls _, _, [] => []
  | Rx.cls cs, _, x :: xs => if cs.contains x then [(some x, xs)] else []
  | Rx.cat a b, p, s => (mtch a p s).flatMap (fun pr => mtch b pr.1 pr.2)
  | Rx.alt a b, p, s => mtch a p s ++ mtch b p s
  | Rx.opt a, p, s => (p, s) :: mtch a p s
  | Rx.wb, p, s => if isBoundary p s then [(p, s)] else []

/-- `re.search` from a given position onward: try to match at the current
position, else advance one character. -/
def searchFrom (r : Rx) : Option Char → List Char → Bool
  | p, [] => !(mtch r p []).isEmpty
  | p, x :: xs => !(mtch r p (x :: xs)).isEmpty || searchFrom r (some x) xs

/-- Python `re.search(r, s) is not None`. -/
def rxSearch (r : Rx) (s : List Char) : Bool := searchFrom r none s

/-- A literal string as a regex. -/
def lit (s : String) : Rx :=
  s.data.foldr (fun c r => Rx.cat (Rx.chr c) r) Rx.eps

/-- Surround with `\b … \b`. -/
def wordB (r : Rx) : Rx := Rx.cat Rx.wb (Rx.cat r Rx.wb)

/-- `QAAnalyzer.PASS_PATTERNS` (qa_analyzer.py lines 57-67), in source
order.  Note `accepted?` is the literal `accepte` followed by an optional
`d`, exactly as the Python regex reads. -/
def PASS_PATTERNS : List Rx :=
  [ wordB (Rx.cat (lit "pass") (Rx.opt (lit "ed"))),
    wordB (Rx.cat (lit "success") (Rx.opt (lit "ful"))),
    wordB (lit "ok"),
    wordB (Rx.cat (lit "accepte") (Rx.opt (Rx.chr 'd'))),
    wordB (Rx.cat (lit "approve") (Rx.opt (Rx.chr 'd'))),
    wordB (Rx.cat (lit "complete") (Rx.opt (Rx.chr 'd'))),
    wordB (lit "valid"),
    wordB (Rx.chr '✓'),
    wordB (Rx.chr '✔') ]

/-- `QAAnalyzer.FAIL_PATTERNS` (qa_analyzer.py lines 69-82), in source
order. -/
def FAIL_PATTERNS : List Rx :=
  [ wordB (Rx.cat (lit "fail") (Rx.opt (Rx.alt (lit "ed") (lit "ure")))),
    wordB (lit "error"),
    wordB (Rx.cat (lit "rejecte") (Rx.opt (Rx.chr 'd'))),
    wordB (Rx.cat (lit "blocke") (Rx.opt (Rx.chr 'd'))),
    wordB (lit "invalid"),
    wordB (lit "incomplete"),
    wordB (lit "pending"),
    wordB (lit "in progress"),
    wordB (Rx.chr '✗'),
    wordB (Rx.chr '✘'),
    wordB (Rx.cat (lit "to") (Rx.cat (Rx.opt (Rx.chr ' ')) (lit "do"))),
    wordB (Rx.cat (lit "not ")
      (Rx.alt (lit "started") (Rx.alt (lit "done") (lit "completed")))) ]

/-- The inline regex `\bn[/\-\s]?a\b` of `_classify_value` (line 197).
After whitespace normalisation the only whitespace left in the text is a
single space, but the full `\s` class is kept. -/
def naRe : Rx :=
  wordB (Rx.cat (Rx.chr 'n')
    (Rx.cat (Rx.opt (Rx.cls ['/', '-', ' ', '\t', '\n', '\r'])) (Rx.chr 'a')))

/-- Exact-equality not-available forms (qa_analyzer.py line 191). -/
def NA_EXACT : List String :=
  ["n/a", "na", "n-a", "n a", "not available", "not applicable"]

/-- Does `needle` occur at the head of `hay`? -/
def startsWithL : List Char → List Char → Bool
  | [], _ => true
  | _ :: _, [] => false
  | a :: as, b :: bs => a = b && startsWithL as bs

/-- Python `needle in hay` for strings (substring containment). -/
def containsSubL (needle : List Char) : List Char → Bool
  | [] => startsWithL needle []
  | c :: t => startsWithL needle (c :: t) || containsSubL needle t

/-- Python `str.strip()` on the repository's character repertoire. -/
def stripL (l : List Char) : List Char :=
  ((l.dropWhile Char.isWhitespace).reverse.dropWhile Char.isWhitespace).reverse

def pyStrip (s : String) : String := String.mk (stripL s.data)

/-- `re.sub(r'\s+', ' ', _)`: every maximal whitespace run becomes one
space.  The flag records whether the previous character was whitespace. -/
def collapseAux : Bool → List Char → List Char
  | _, [] => []
  | prevWs, c :: t =>
    if c.isWhitespace then
      if prevWs then collapseAux true t else ' ' :: collapseAux true t
    else c :: collapseAux false t

def collapseWs (l : List Char) : List Char := collapseAux false l

/-- Python `str.lower()` on the repository's character repertoire. -/
def pyLower (s : String) : String := String.mk (s.data.map Char.toLower)

/-- The classification enumeration returned by `_classify_value`. -/
inductive Classification : Type
  | pass : Classification
  | fail : Classification
  | not_available : Classification
  | invalid : Classification
deriving Repr, DecidableEq

/-- A raw spreadsheet cell value: missing (NaN), text, or a number. -/
inductive CellValue : Type
  | na : CellValue
  | str : String → CellValue
  | num : Int → CellValue
deriving Repr, DecidableEq

/-- `str(value)` for the cell values we model. -/
def cellToStr : CellValue → String
  | CellValue.na => "nan"
  | CellValue.str s => s
  | CellValue.num n => toString n

/-- The body of `QAAnalyzer._classify_value` after the `pd.isna`/empty
check (qa_analyzer.py lines 179-211), applied to the string form of the
value. -/
def classifyStr (s : String) : Classification :=
  let value_str := pyStrip s
  if value_str = "" then Classification.invalid
  else
    let value_clean := pyStrip (String.mk (collapseWs value_str.data))
    let value_lower := pyLower value_clean
    if NA_EXACT.contains value_lower then Classification.not_available
    else if containsSubL "n/a".data value_lower.data then
      Classification.not_available
    else if rxSearch naRe value_lower.data then Classification.not_available
    else if PASS_PATTERNS.any (fun r => rxSearch r value_lower.data) then
      Classification.pass
    else if FAIL_PATTERNS.any (fun r => rxSearch r value_lower.data) then
      Classification.fail
    else Classification.invalid

/-- `QAAnalyzer._classify_value` (qa_analyzer.py lines 165-211). -/
def classify (v : CellValue) : Classification :=
  match v with
  | CellValue.na => Classification.invalid
  | CellValue.str s => if s = "" then Classification.invalid else classifyStr s
  | CellValue.num n => classifyStr (toString n)

/-- The per-column aggregate returned by `_analyze_result_column`
(qa_analyzer.py lines 385-392). -/
@[ext]
structure ColSummary where
  pass_count : Nat
  fail_count : Nat
  not_available_count : Nat
  invalid_count : Nat
  total : Nat
  total_rows : Nat
deriving Repr, DecidableEq

/-- `QAAnalyzer._analyze_result_column` (qa_analyzer.py lines 338-392).
The Python loop increments exactly one of four counters per cell according
to `_classify_value`; since classification is a pure function the final
counters equal the counts below.  `total` is the valid total
`pass + fail + not_available` of line 376, and `total_rows` is `len(df)`,
which equals the column's length (every pandas column has one entry per
row). -/
def analyzeResultColumn (cells : List CellValue) : ColSummary :=
  let pass_count := cells.countP (fun v => classify v == Classification.pass)
  let fail_count := cells.countP (fun v => classify v == Classification.fail)
  let not_available_count :=
    cells.countP (fun v => classify v == Classification.not_available)
  let invalid_count :=
    cells.countP (fun v => classify v == Classification.invalid)
  { pass_count := pass_count, fail_count := fail_count,
    not_available_count := not_available_count,
    invalid_count := invalid_count,
    total := pass_count + fail_count + not_available_count,
    total_rows := cells.length }

/-- The multi-column combination of `analyze_sheet`
(qa_analyzer.py lines 272-288): counts are summed across the configured
columns' summaries and the combined valid total is recomputed as
`pass + fail + not_available`. -/
def combineSummaries (summaries : List ColSummary) : ColSummary :=
  let combined_pass := (summaries.map (·.pass_count)).sum
  let combined_fail := (summaries.map (·.fail_count)).sum
  let combined_na := (summaries.map (·.not_available_count)).sum
  let combined_invalid := (summaries.map (·.invalid_count)).sum
  let combined_total := combined_pass + combined_fail + combined_na
  let combined_rows := (summaries.map (·.total_rows)).sum
  { pass_count := combined_pass, fail_count := combined_fail,
    not_available_count := combined_na, invalid_count := combined_invalid,
    total := combined_total, total_rows := combined_rows }

/-- Elementwise sum of two column summaries (the specification's notion of
"elementwise sum": every field adds). -/
def addSummary (a b : ColSummary) : ColSummary :=
  { pass_count := a.pass_count + b.pass_count,
    fail_count := a.fail_count + b.fail_count,
    not_available_count := a.not_available_count + b.not_available_count,
    invalid_count := a.invalid_count + b.invalid_count,
    total := a.total + b.total,
    total_rows := a.total_rows + b.total_rows }

/-- The all-zero column summary (neutral element of `addSummary`). -/
def zeroSummary : ColSummary := ⟨0, 0, 0, 0, 0, 0⟩

/-- `QAAnalyzer.RESULT_KEYWORDS` (qa_analyzer.py lines 53-54). -/
def RESULT_KEYWORDS : List String :=
  ["result", "status", "outcome", "pass", "fail", "test result",
   "qa result", "test status", "qa status", "verdict", "n/a"]

/-- The header test of `identify_result_columns` (line 139):
`any(keyword in col_lower for keyword in RESULT_KEYWORDS)` where
`col_lower = str(col).lower().strip()` — plain substring containment. -/
def headerKeywordMatch (header : String) : Bool :=
  RESULT_KEYWORDS.any
    (fun k => containsSubL k.data (pyStrip (pyLower header)).data)

/-- `QAAnalyzer._column_has_pass_fail_values` (qa_analyzer.py lines
149-163): drop missing cells, stringify and lower-case, take the first
100, classify each, and require strictly more than 30% of the sample to be
pass/fail/not_available.  `matches / len > 0.3` is stated exactly as the
rational comparison `10 * matches > 3 * len` (for `len ≤ 100` the float
quotient is far closer to the exact rational than to `0.3`, and the ties
`matches/len = 3/10` round to the double of `0.3` itself, so the float
comparison agrees with the rational one). -/
def columnHasPassFailValues (cells : List CellValue) : Bool :=
  let sample := ((cells.filter (fun v => v != CellValue.na)).map
    (fun v => pyLower (cellToStr v))).take 100
  if sample.length = 0 then false
  else
    let nMatches := sample.countP (fun s =>
      classifyStr s == Classification.pass ||
      classifyStr s == Classification.fail ||
      classifyStr s == Classification.not_available)
    decide (sample.length * 3 < nMatches * 10)

/-- The auto-detect filter applied to one column (qa_analyzer.py lines
136-145): header keyword containment first, cell sampling second. -/
def isResultColumn (c : String × List CellValue) : Bool :=
  headerKeywordMatch c.1 || columnHasPassFailValues c.2

/-- `QAAnalyzer.identify_result_columns` (qa_analyzer.py lines 131-147).
Columns are carried together with their cells (the Python code returns the
labels and re-indexes the frame with them). -/
def identifyResultColumns (cols : List (String × List CellValue)) :
    List (String × List CellValue) :=
  cols.filter isResultColumn

/-- `QAAnalyzer.column_letter_to_index` (qa_analyzer.py lines 107-116):
base-26 positional value of the upper-cased letters, minus one. -/
def column_letter_to_index (letter : String) : Int :=
  (letter.data.foldl
    (fun result c => result * 26 + ((c.toUpper.toNat : Int) - ('A'.toNat : Int) + 1))
    0) - 1

/-- One sheet as read from the workbook: its name, its columns in sheet
order (each label paired with its cells), and its row count. -/
structure SheetGrid where
  sheet_name : String
  columns : List (String × List CellValue)
  nRows : Nat
deriving Repr, DecidableEq

/-- The per-sheet outcome dictionary of `analyze_sheet`.  The Python error
dictionary carries only `sheet_name`, `error` and `has_results`; readers
use `.get('total_rows', 0)` etc., which the zero defaults below mirror. -/
structure SheetResult where
  sheet_name : String
  total_rows : Nat
  total_columns : Nat
  has_results : Bool
  error : Option String
  result_columns : List String
  summary : Option ColSummary
deriving Repr, DecidableEq

/-- Column resolution inside `analyze_sheet` (qa_analyzer.py lines
229-251): configured mode converts each letter and keeps it only when the
index is within the sheet's width; auto-detect mode applies
`identify_result_columns`. -/
def resolvedColumns (g : SheetGrid) (config : Option (List String)) :
    List (String × List CellValue) :=
  match config with
  | some letters =>
    letters.filterMap (fun L =>
      let idx := column_letter_to_index L
      if idx < (g.columns.length : Int) then g.columns.get? idx.toNat
      else none)
  | none => identifyResultColumns g.columns

/-- The body of `analyze_sheet` after a successful read
(qa_analyzer.py lines 220-328): resolve columns, summarise each, and for
more than one resolved column combine the summaries. -/
def analyzeSheetBody (g : SheetGrid) (config : Option (List String)) :
    SheetResult :=
  match resolvedColumns g config with
  | [] =>
    { sheet_name := g.sheet_name, total_rows := g.nRows,
      total_columns := g.columns.length, has_results := false,
      error := none, result_columns := [], summary := none }
  | c :: rest =>
    let summaries := (c :: rest).map (fun col => analyzeResultColumn col.2)
    let primary :=
      if rest.isEmpty then analyzeResultColumn c.2
      else combineSummaries summaries
    { sheet_name := g.sheet_name, total_rows := g.nRows,
      total_columns := g.columns.length, has_results := true,
      error := none, result_columns := (c :: rest).map Prod.fst,
      summary := some primary }

/-- `QAAnalyzer.analyze_sheet` (qa_analyzer.py lines 213-336).  The whole
body sits inside `try/except Exception`; a raised exception during the
read or the analysis is modelled as an `Except.error` input and is

converted into a failure dictionary (lines 330-336). -/
def analyze_sheet (sheet_name : String) (readResult : Except String SheetGrid)
    (config : Option (List String)) : SheetResult :=
  match readResult with
  | Except.error e =>
    { sheet_name := sheet_name, total_rows := 0, total_columns := 0,
      has_results := false, error := some e, result_columns := [],
      summary := none }
  | Except.ok g => analyzeSheetBody g config

/-- `QAAnalyzer.analyze_all_sheets` (qa_analyzer.py lines 394-416): the
loop over the sheets to analyse, each entry produced independently by
`analyze_sheet`. -/
def analyze_all_sheets
    (sheets : List (String × Except String SheetGrid × Option (List String))) :
    List SheetResult :=
  sheets.map (fun s => analyze_sheet s.1 s.2.1 s.2.2)

/-! ## Persisted snapshots and the History Aggregator

`QAAnalyzer.save_to_csv` writes one CSV row per sheet per run;
`ProgressTracker` reads those files back.  pandas column access by name —
and in particular the `KeyError` that `.agg` raises when a requested
column does not exist in the frame — is modelled by carrying the frame's
column-name schema explicitly and holding each row's numeric fields in an
association list keyed by column name. -/

/-- The CSV header written by `save_to_csv` (qa_analyzer.py lines
562-623), in insertion order.  There is no `unknown_count` column. -/
def snapColumns : List String :=
  ["timestamp", "sheet_name", "total_rows", "total_columns", "has_results",
   "pass_count", "fail_count", "not_available_count", "invalid_count",
   "total_tests", "total_rows_in_sheet", "pass_percentage",
   "fail_percentage", "not_available_percentage",
   "configured_column_letter", "primary_result_column",
   "all_result_columns", "status"]

/-- One persisted snapshot row.  The integer columns are held in an
association list so that lookup by column name can fail like pandas
lookup; the string-valued columns and the two derived percentage columns
are carried only through the schema `snapColumns` (ProgressTracker's
aggregations never read them as numbers). -/
structure SnapRow where
  timestamp : Nat
  sheet_name : String
  has_results : Bool
  numCols : List (String × Int)
deriving Repr, DecidableEq

/-- The row built by `save_to_csv` for one sheet result
(qa_analyzer.py lines 561-625): the `has_results` branch copies the
summary counts, the other branch writes zeros. -/
def save_to_csv_row (ts : Nat) (r : SheetResult) : SnapRow :=
  { timestamp := ts, sheet_name := r.sheet_name,
    has_results := r.has_results,
    numCols :=
      match r.summary, r.has_results with
      | some s, true =>
        [("total_rows", (r.total_rows : Int)),
         ("total_columns", (r.total_columns : Int)),
         ("pass_count", (s.pass_count : Int)),
         ("fail_count", (s.fail_count : Int)),
         ("not_available_count", (s.not_available_count : Int)),
         ("invalid_count", (s.invalid_count : Int)),
         ("total_tests", (s.total : Int)),
         ("total_rows_in_sheet", (s.total_rows : Int))]
      | _, _ =>
        [("total_rows", (r.total_rows : Int)),
         ("total_columns", (r.total_columns : Int)),
         ("pass_count", 0), ("fail_count", 0),
         ("not_available_count", 0), ("invalid_count", 0),
         ("total_tests", 0),
         ("total_rows_in_sheet", (r.total_rows : Int))] }

/-- A loaded history frame: the column schema plus the concatenated rows
(`ProgressTracker.load_csv_files`, progress_tracker.py lines 23-47;
`pd.concat` of files that all share the `save_to_csv` schema). -/
structure SnapDF where
  cols : List String
  rows : List SnapRow
deriving Repr, DecidableEq

/-- The history obtained by running `save_to_csv` at a sequence of
timestamps and loading every produced file: all rows follow the
`snapColumns` schema. -/
def loadHistory (runs : List (Nat × List SheetResult)) : SnapDF :=
  { cols := snapColumns,
    rows := runs.flatMap (fun run => run.2.map (save_to_csv_row run.1)) }

/-- pandas numeric column lookup on one row. -/
def lookupCol (r : SnapRow) (c : String) : Option Int :=
  (r.numCols.find? (fun p => p.1 == c)).map (·.2)

/-- Column sum over a set of rows (`'sum'` aggregation).  Only reached
when the column exists in the frame's schema, so the per-row default is
immaterial. -/
def sumCol (rs : List SnapRow) (c : String) : Int :=
  (rs.map (fun r => (lookupCol r c).getD 0)).sum

/-- The distinct timestamps of a set of rows, ascending (pandas `groupby`
sorts its keys; `unique()`'s length is what the `< 2` guard inspects). -/
def distinctTimestamps (rs : List SnapRow) : List Nat :=
  ((rs.map (·.timestamp)).dedup).insertionSort (· ≤ ·)

/-- The aggregation dictionary used by both `get_overall_progress`
(progress_tracker.py lines 55-60) and `compare_first_and_last` (lines
99-111): note the key `unknown_count`. -/
def aggKeys : List String :=
  ["pass_count", "fail_count", "unknown_count", "total_tests"]

/-- `round(_, 2)` on exact rationals.  (pandas rounds the float quotient
half-to-even; this branch of the model is unreachable on histories with
the `save_to_csv` schema, see `get_overall_progress`.) -/
def round2 (x : Rat) : Rat := ((round (x * 100) : Int) : Rat) / 100

/-- One row of the frame produced by `get_overall_progress`. -/
structure ProgressEntry where
  timestamp : Nat
  pass_count : Int
  fail_count : Int
  unknown_count : Int
  total_tests : Int
  pass_percentage : Rat
  fail_percentage : Rat
  unknown_percentage : Rat
deriving Repr, DecidableEq

/-- `ProgressTracker.get_overall_progress` (progress_tracker.py lines
49-67): filter to `has_results`, group by timestamp, and aggregate the
four columns of `aggKeys`.  pandas raises `KeyError` when an aggregation
key is not a column of the frame; that exception is the `Except.error`
branch.  (In the `Except.ok` branch the percentage of a zero total would
be NaN in pandas — the code has no zero guard there — represented here by
`Rat` division's zero result; the branch is never reached on
`save_to_csv` data.) -/
def get_overall_progress (df : SnapDF) : Except String (List ProgressEntry) :=
  match aggKeys.filter (fun c => !(df.cols.contains c)) with
  | [] =>
    let rows := df.rows.filter (·.has_results)
    Except.ok <| (distinctTimestamps rows).map (fun ts =>
      let grp := rows.filter (·.timestamp == ts)
      let p := sumCol grp "pass_count"
      let f := sumCol grp "fail_count"
      let u := sumCol grp "unknown_count"
      let t := sumCol grp "total_tests"
      { timestamp := ts, pass_count := p, fail_count := f,
        unknown_count := u, total_tests := t,
        pass_percentage := round2 ((p : Rat) / (t : Rat) * 100),
        fail_percentage := round2 ((f : Rat) / (t : Rat) * 100),
        unknown_percentage := round2 ((u : Rat) / (t : Rat) * 100) })
  | missing =>
    Except.error ("KeyError: Column(s) " ++ String.intercalate ", " missing
      ++ " do not exist")

/-- The totals dictionary of `compare_first_and_last`. -/
structure CompareTotals where
  pass_count : Int
  fail_count : Int
  unknown_count : Int
  total_tests : Int
deriving Repr, DecidableEq

/-- The comparison dictionary returned by `compare_first_and_last`. -/
structure CompareResult where
  first_timestamp : Nat
  last_timestamp : Nat
  first : CompareTotals
  last : CompareTotals
  pass_change : Int
  fail_change : Int
  unknown_change : Int
  total_change : Int
deriving Repr, DecidableEq

/-- Totals over the `has_results` rows of one snapshot
(progress_tracker.py lines 99-111) — again via the `aggKeys` dictionary,
whose missing-column `KeyError` is checked by the caller. -/
def snapshotTotals (rs : List SnapRow) : CompareTotals :=
  let wr := rs.filter (·.has_results)
  { pass_count := sumCol wr "pass_count",
    fail_count := sumCol wr "fail_count",
    unknown_count := sumCol wr "unknown_count",
    total_tests := sumCol wr "total_tests" }

/-- `ProgressTracker.compare_first_and_last` (progress_tracker.py lines
87-124).  `Except.ok none` is the Python `return None` taken when fewer
than two distinct timestamps are loaded; `Except.error` is the pandas
`KeyError` raised by `.agg` when an aggregation key is not a column of the
frame. -/
def compare_first_and_last (df : SnapDF) :
    Except String (Option CompareResult) :=
  if (df.rows.map (·.timestamp)).dedup.length < 2 then Except.ok none
  else
    match aggKeys.filter (fun c => !(df.cols.contains c)) with
    | [] =>
      let ts := df.rows.map (·.timestamp)
      let firstTs := ts.foldr min (ts.headD 0)
      let lastTs := ts.foldr max (ts.headD 0)
      let firstTotals := snapshotTotals (df.rows.filter (·.timestamp == firstTs))
      let lastTotals := snapshotTotals (df.rows.filter (·.timestamp == lastTs))
      Except.ok <| some
        { first_timestamp := firstTs, last_timestamp := lastTs,
          first := firstTotals, last := lastTotals,
          pass_change := lastTotals.pass_count - firstTotals.pass_count,
          fail_change := lastTotals.fail_count - firstTotals.fail_count,
          unknown_change := lastTotals.unknown_count - firstTotals.unknown_count,
          total_change := lastTotals.total_tests - firstTotals.total_tests }
    | missing =>
      Except.error ("KeyError: Column(s) " ++ String.intercalate ", " missing
        ++ " do not exist")

/-- Did the call raise (pandas `KeyError`)? -/
def raised {α : Type} : Except String α → Bool
  | Except.error _ => true
  | Except.ok _ => false

/-! ## Auxiliary definitions for the statements -/

/-- The normalised, lower-cased text `value_lower` that `_classify_value`
computes on lines 179-187 (strip, collapse whitespace runs, strip,
lower-case). -/
def normLower (s : String) : String :=
  pyLower (pyStrip (String.mk (collapseWs (pyStrip s).data)))

/-- A result column holding `p` cells reading "Pass" followed by `f`
cells reading "Fail". -/
def passFailCells (p f : Nat) : List CellValue :=
  List.replicate p (CellValue.str "Pass") ++
    List.replicate f (CellValue.str "Fail")

/-- A one-column sheet for the specification's end-to-end scenario. -/
def runGrid (p f : Nat) : SheetGrid :=
  { sheet_name := "CF1_ID card",
    columns := [("Result", passFailCells p f)], nRows := p + f }

/-- The sheet result of analysing `runGrid p f` with column `A`
configured. -/
def runResult (p f : Nat) : SheetResult :=
  analyzeSheetBody (runGrid p f) (some ["A"])

/-- A two-result-column sheet (both headers contain the keyword
`result`), used to exercise the multi-column combination. -/
def twoColGrid : SheetGrid :=
  { sheet_name := "Conversation Flow_main menu",
    columns :=
      [("Result K", [CellValue.str "Pass", CellValue.str "Fail"]),
       ("Result L", [CellValue.str "Pass", CellValue.str "n/a"])],
    nRows := 2 }

/-! ## Helper lemmas -/

/-- Each cell is classified into exactly one of the four buckets, so the
four counters sum to the number of rows. -/
theorem countP_classify_partition (cells : List CellValue) :
    cells.countP (fun v => classify v == Classification.pass) +
      cells.countP (fun v => classify v == Classification.fail) +
      cells.countP (fun v => classify v == Classification.not_available) +
      cells.countP (fun v => classify v == Classification.invalid) =
      cells.length := by
  induction cells with
  | nil => rfl
  | cons x t ih =>
    simp only [List.countP_cons, List.length_cons]
    cases hx : classify x <;> simp [hx] <;> omega

theorem foldl_addSummary_eq (l : List ColSummary) (a : ColSummary) :
    l.foldl addSummary a =
      { pass_count := a.pass_count + (l.map (fun s => s.pass_count)).sum,
        fail_count := a.fail_count + (l.map (fun s => s.fail_count)).sum,
        not_available_count :=
          a.not_available_count + (l.map (fun s => s.not_available_count)).sum,
        invalid_count :=
          a.invalid_count + (l.map (fun s => s.invalid_count)).sum,
        total := a.total + (l.map (fun s => s.total)).sum,
        total_rows := a.total_rows + (l.map (fun s => s.total_rows)).sum } := by
  induction l generalizing a with
  | nil => ext <;> simp
  | cons x t ih =>
    rw [List.foldl_cons, ih]
    ext <;> simp [addSummary] <;> omega

theorem sum_map_total_eq (l : List ColSummary)
    (h : ∀ s ∈ l, s.total =
      s.pass_count + s.fail_count + s.not_available_count) :
    (l.map (fun s => s.total)).sum =
      (l.map (fun s => s.pass_count)).sum +
      (l.map (fun s => s.fail_count)).sum +
      (l.map (fun s => s.not_available_count)).sum := by
  induction l with
  | nil => simp
  | cons x t ih =>
    simp only [List.map_cons, List.sum_cons]
    rw [h x (by simp), ih (fun s hs => h s (by simp [hs]))]
    omega

theorem combineSummaries_eq_foldl (l : List ColSummary)
    (h : ∀ s ∈ l, s.total =
      s.pass_count + s.fail_count + s.not_available_count) :
    combineSummaries l = l.foldl addSummary zeroSummary := by
  rw [foldl_addSummary_eq]
  unfold combineSummaries zeroSummary
  ext <;> simp [sum_map_total_eq l h]

/-- The valid total of `analyzeResultColumn` is `pass + fail + n/a` by
construction. -/
theorem analyzeResultColumn_total (cells : List CellValue) :
    (analyzeResultColumn cells).total =
      (analyzeResultColumn cells).pass_count +
      (analyzeResultColumn cells).fail_count +
      (analyzeResultColumn cells).not_available_count := rfl

/-! ## Claim theorems -/

/-- C5: `_classify_value` is total over cell values (text, number or
blank) and always returns exactly one of the four outcomes. -/
theorem c5_classifier_total (v : CellValue) :
    classify v = Classification.pass ∨ classify v = Classification.fail ∨
      classify v = Classification.not_available ∨
      classify v = Classification.invalid := by
  cases h : classify v <;> simp

/-- C9: `classify("passenger seat test")` does not return `pass`; the
word-boundary anchoring keeps "pass" inside "passenger" from matching. -/
theorem c9_word_boundary :
    classify (CellValue.str "passenger seat test") =
        Classification.invalid ∧
      classify (CellValue.str "passenger seat test") ≠
        Classification.pass := by decide

/-- Any of the three not-available checks of `_classify_value` (exact
list, `'n/a' in value_lower`, inline regex), stated on the normalised
text, forces the result `not_available` — they all precede the pass and
fail patterns. -/
theorem classify_na_of_check (s : String)
    (h : NA_EXACT.contains (normLower s) = true ∨
      containsSubL "n/a".data (normLower s).data = true ∨
      rxSearch naRe (normLower s).data = true) :
    classify (CellValue.str s) = Classification.not_available := by
  have hne : pyStrip s ≠ "" := by
    intro he
    have hnl : normLower s = "" := by
      unfold normLower
      rw [he]
      decide
    rw [hnl] at h
    rcases h with h | h | h <;> exact absurd h (by decide)
  have hs : s ≠ "" := by
    intro he
    apply hne
    rw [he]
    rfl
  simp only [normLower] at h
  simp only [classify, if_neg hs, classifyStr]
  rw [if_neg hne]
  rcases h with h | h | h <;> split_ifs <;> simp_all

/-- C3: the spec's classification examples, except that a lone check mark
classifies as `invalid`: `\b✓\b` cannot match the standalone string "✓"
because the check mark is not a regex word character, so neither side of
it can supply the word-character a `\b` assertion needs. -/
theorem c3_classification_examples :
    classify (CellValue.str "Pass") = Classification.pass ∧
    classify (CellValue.str "PASSED") = Classification.pass ∧
    classify (CellValue.str " pass ") = Classification.pass ∧
    classify (CellValue.str "✓") = Classification.invalid ∧
    classify (CellValue.str "Failed") = Classification.fail ∧
    classify (CellValue.str "Rejected") = Classification.fail ∧
    classify (CellValue.str "To Do") = Classification.fail ∧
    classify (CellValue.str "N/A") = Classification.not_available ∧
    classify (CellValue.str "n-a") = Classification.not_available ∧
    classify (CellValue.str "not applicable") = Classification.not_available ∧
    classify (CellValue.str "") = Classification.invalid ∧
    classify (CellValue.str "   ") = Classification.invalid ∧
    classify (CellValue.str "random comment") = Classification.invalid := by
  decide

/-- C4 counterexample: "is not applicable" contains "not applicable" as a
whole-word token of its (here unchanged) normalisation, yet
`_classify_value` returns `invalid` — the phrase forms are only compared
for exact equality (the `NOT_AVAILABLE_PATTERNS` word patterns are never
consulted by `_classify_value`). -/
theorem c4_counterexample :
    normLower "is not applicable" = "is not applicable" ∧
    classify (CellValue.str "is not applicable") = Classification.invalid ∧
    Classification.invalid ≠ Classification.not_available := by decide

/-- C4 amended: the token-containment route to `not_available` exists
only for the letter forms (the inline regex `\bn[/\-\s]?a\b` and the
plain substring `n/a`); the phrase forms `not available` / `not
applicable` fire only when the whole normalised text equals them (covered
by membership in `NA_EXACT`).  All three checks precede the pass/fail
patterns, and none fires inside a larger word such as "banana". -/
theorem c4_na_matching_amended :
    (∀ s : String, NA_EXACT.contains (normLower s) = true →
      classify (CellValue.str s) = Classification.not_available) ∧
    (∀ s : String, containsSubL "n/a".data (normLower s).data = true →
      classify (CellValue.str s) = Classification.not_available) ∧
    (∀ s : String, rxSearch naRe (normLower s).data = true →
      classify (CellValue.str s) = Classification.not_available) ∧
    classify (CellValue.str "banana") = Classification.invalid :=
  ⟨fun s h => classify_na_of_check s (Or.inl h),
   fun s h => classify_na_of_check s (Or.inr (Or.inl h)),
   fun s h => classify_na_of_check s (Or.inr (Or.inr h)),
   by decide⟩

/-- C4 witness: the amended theorem applied at concrete inputs — an exact
not-available form, an embedded `n/a`, and an `n a` token inside a longer
remark. -/
theorem c4_amended_witness :
    classify (CellValue.str "not available") = Classification.not_available ∧
    classify (CellValue.str "see n/a here") = Classification.not_available ∧
    classify (CellValue.str "was n a today") = Classification.not_available :=
  ⟨c4_na_matching_amended.1 "not available" (by decide),
   c4_na_matching_amended.2.1 "see n/a here" (by decide),
   c4_na_matching_amended.2.2.1 "was n a today" (by decide)⟩

/-- C6: a sheet whose read raises is converted into a `has_results=false`
entry carrying the error description, and the workbook loop maps every
sheet independently — the surrounding sheets' results are exactly what
they would be on their own, and the run always completes. -/
theorem c6_sheet_error_containment
    (xs ys : List (String × Except String SheetGrid × Option (List String)))
    (name e : String) (cfg : Option (List String)) :
    analyze_all_sheets (xs ++ (name, Except.error e, cfg) :: ys) =
      analyze_all_sheets xs ++
        analyze_sheet name (Except.error e) cfg :: analyze_all_sheets ys ∧
    (analyze_sheet name (Except.error e) cfg).has_results = false ∧
    (analyze_sheet name (Except.error e) cfg).error = some e := by
  refine ⟨?_, rfl, rfl⟩
  simp [analyze_all_sheets]

/-- Summing the per-summary bucket counts and summing the row counts
agree when every summary satisfies the partition invariant. -/
theorem sum_map_partition (l : List ColSummary)
    (h : ∀ s ∈ l, s.pass_count + s.fail_count + s.not_available_count +
      s.invalid_count = s.total_rows) :
    (l.map (fun s => s.pass_count)).sum +
      (l.map (fun s => s.fail_count)).sum +
      (l.map (fun s => s.not_available_count)).sum +
      (l.map (fun s => s.invalid_count)).sum =
      (l.map (fun s => s.total_rows)).sum := by
  induction l with
  | nil => simp
  | cons x t ih =>
    simp only [List.map_cons, List.sum_cons]
    have hx := h x (by simp)
    have ht := ih (fun s hs => h s (by simp [hs]))
    omega

/-- C7: for every analysed result column the four counts partition the
rows, and the valid total is `pass + fail + not_available`; the combined
summary of any set of columns satisfies the same two identities. -/
theorem c7_column_result_invariant :
    (∀ cells : List CellValue,
      (analyzeResultColumn cells).pass_count +
        (analyzeResultColumn cells).fail_count +
        (analyzeResultColumn cells).not_available_count +
        (analyzeResultColumn cells).invalid_count =
        (analyzeResultColumn cells).total_rows ∧
      (analyzeResultColumn cells).total =
        (analyzeResultColumn cells).pass_count +
        (analyzeResultColumn cells).fail_count +
        (analyzeResultColumn cells).not_available_count) ∧
    (∀ cols : List (List CellValue),
      (combineSummaries (cols.map analyzeResultColumn)).pass_count +
        (combineSummaries (cols.map analyzeResultColumn)).fail_count +
        (combineSummaries (cols.map analyzeResultColumn)).not_available_count +
        (combineSummaries (cols.map analyzeResultColumn)).invalid_count =
        (combineSummaries (cols.map analyzeResultColumn)).total_rows ∧
      (combineSummaries (cols.map analyzeResultColumn)).total =
        (combineSummaries (cols.map analyzeResultColumn)).pass_count +
        (combineSummaries (cols.map analyzeResultColumn)).fail_count +
        (combineSummaries (cols.map analyzeResultColumn)).not_available_count) := by
  refine ⟨fun cells => ⟨countP_classify_partition cells, rfl⟩, fun cols => ⟨?_, rfl⟩⟩
  refine sum_map_partition (cols.map analyzeResultColumn) ?_
  intro s hs
  obtain ⟨c, _, rfl⟩ := List.mem_map.mp hs
  exact countP_classify_partition c

/-- C8: for more than one resolved result column, the sheet's combined
summary is the elementwise (fold of `addSummary`) sum of the
independently computed column summaries, and `addSummary` is associative
and commutative. -/
theorem c8_multi_column_combination :
    (∀ (g : SheetGrid) (cfg : Option (List String)),
      1 < (resolvedColumns g cfg).length →
      (analyzeSheetBody g cfg).summary =
        some (((resolvedColumns g cfg).map
          (fun c => analyzeResultColumn c.2)).foldl addSummary zeroSummary)) ∧
    (∀ a b c : ColSummary,
      addSummary (addSummary a b) c = addSummary a (addSummary b c)) ∧
    (∀ a b : ColSummary, addSummary a b = addSummary b a) := by
  refine ⟨?_, ?_, ?_⟩
  · intro g cfg hlen
    rcases hres : resolvedColumns g cfg with _ | ⟨c, rest⟩
    · rw [hres] at hlen
      simp at hlen
    · rcases rest with _ | ⟨c2, rest'⟩
      · rw [hres] at hlen
        simp at hlen
      · unfold analyzeSheetBody
        rw [hres]
        show some (combineSummaries ((c :: c2 :: rest').map
          (fun col => analyzeResultColumn col.2))) = _
        rw [combineSummaries_eq_foldl]
        intro s hs
        obtain ⟨col, _, rfl⟩ := List.mem_map.mp hs
        exact analyzeResultColumn_total col.2
  · intro a b c
    ext <;> simp [addSummary] <;> omega
  · intro a b
    ext <;> simp [addSummary] <;> omega

/-- C8 witness: the combination theorem applied to a concrete sheet with
two auto-detected result columns. -/
theorem c8_witness :
    1 < (resolvedColumns twoColGrid none).length ∧
    (analyzeSheetBody twoColGrid none).summary =
      some (((resolvedColumns twoColGrid none).map
        (fun c => analyzeResultColumn c.2)).foldl addSummary zeroSummary) :=
  ⟨by decide, c8_multi_column_combination.1 twoColGrid none (by decide)⟩

/-- C10: any column whose lower-cased, stripped header contains a result
keyword as a plain substring is selected by `identify_result_columns`
regardless of its cells. -/
theorem c10_header_substring_detection
    (cols : List (String × List CellValue)) (name : String)
    (cells : List CellValue) (hmem : (name, cells) ∈ cols)
    (hkey : headerKeywordMatch name = true) :
    (name, cells) ∈ identifyResultColumns cols ∧
    name ∈ (identifyResultColumns cols).map Prod.fst := by
  have h1 : (name, cells) ∈ identifyResultColumns cols := by
    unfold identifyResultColumns
    refine List.mem_filter.mpr ⟨hmem, ?_⟩
    unfold isResultColumn
    simp [hkey]
  exact ⟨h1, List.mem_map.mpr ⟨(name, cells), h1, rfl⟩⟩

/-- C10 witness: a "Passport" header (which merely embeds "pass") is
selected even though its only cell value classifies as `invalid`, unlike
the word-boundary-anchored cell classification. -/
theorem c10_witness :
    ("Passport", [CellValue.str "banana"]) ∈
      identifyResultColumns
        [("ID", [CellValue.str "banana"]),
         ("Passport", [CellValue.str "banana"])] ∧
    headerKeywordMatch "Passport" = true ∧
    columnHasPassFailValues [CellValue.str "banana"] = false :=
  ⟨(c10_header_substring_detection _ "Passport" [CellValue.str "banana"]
      (by decide) (by decide)).1,
   by decide, by decide⟩

/-- C1: `get_overall_progress` aggregates the column `unknown_count`,
which the persisted `save_to_csv` schema does not contain (it carries
`not_available_count`), so on every loaded history the pandas aggregation
raises `KeyError` instead of summing anything. -/
theorem c1_overall_progress_keyerror (runs : List (Nat × List SheetResult)) :
    raised (get_overall_progress (loadHistory runs)) = true := rfl

/-- C2: with at least two distinct timestamps loaded,
`compare_first_and_last` reaches the same `unknown_count` aggregation and
raises `KeyError` instead of returning the signed deltas. -/
theorem c2_compare_first_last_keyerror (runs : List (Nat × List SheetResult))
    (h : 2 ≤ ((loadHistory runs).rows.map (fun r => r.timestamp)).dedup.length) :
    raised (compare_first_and_last (loadHistory runs)) = true := by
  unfold compare_first_and_last
  rw [if_neg (by omega)]
  rfl

/-- C2 witness: the specification's own scenario — the same sheet
analysed twice, first pass=5/fail=5 then pass=8/fail=2 — raises instead
of reporting pass_change=+3, fail_change=-3. -/
theorem c2_witness :
    2 ≤ ((loadHistory [(1, [runResult 5 5]), (2, [runResult 8 2])]).rows.map
      (fun r => r.timestamp)).dedup.length ∧
    raised (compare_first_and_last
      (loadHistory [(1, [runResult 5 5]), (2, [runResult 8 2])])) = true :=
  ⟨by decide, c2_compare_first_last_keyerror _ (by decide)⟩

end QA
